import Mathlib

/-!
# Verification of the installment payment-coverage engine

Shallow embedding of the coverage / debt-accounting core of the
`motocar.api` repository: the 30-day-month "logical calendar"
(`addLogicalDays`, `getLogicalDaysDifference`), the coverage ledger
(`getLastCoveredDate`), the payment coverage calculator
(`calculatePaymentCoverageWithSkippedDates`, `calculateCoverage`) and the
payment create / remove aggregate updates, in the two variants present in
the sources:

* namespace `V1`: `src/installment/installment.service.ts`;
* namespace `V2`: the later service variant (the one that persists the
  debt snapshot on each installment record).

Dates are modelled at day resolution in the loan's timezone: the
`startOfDay` / `toColombiaUtc` / `toColombiaMidnightUtc` conversions of
the source are the identity in this model, and `new Date()` ("now") is an
explicit `today` parameter.  JavaScript `Date` mutation semantics
(`setDate`, `setMonth`, real month lengths, overflow normalization into
the following months, leap years) are modelled exactly, because several
behaviours of the source depend on them.  Currency amounts and day counts
are modelled as `ℚ` (the source uses JS floats; the spec's arithmetic is
stated over exact reals).
-/

/-- A JavaScript `Date` at day resolution: `month` is 0-based (0 = January)
and `day` is 1-based, as returned by `getMonth` / `getDate`. -/
structure JSDate where
  year : Int
  month : Nat
  day : Nat
deriving DecidableEq, Repr

/-- Gregorian leap year rule (as implemented by JS `Date`). -/
def isLeapYear (y : Int) : Bool :=
  (y % 4 == 0 && y % 100 != 0) || y % 400 == 0

/-- Number of days of the (0-based) month `m` of year `y`. -/
def daysInMonth (y : Int) (m : Nat) : Nat :=
  if m = 1 then (if isLeapYear y then 29 else 28)
  else if m = 3 ∨ m = 5 ∨ m = 8 ∨ m = 10 then 30
  else 31

/-- Core of JS `Date.setDate`: set the day-of-month to `n` (which may lie
outside `1 .. daysInMonth`) and normalize by carrying whole months forward
(`n` too large) or backward (`n ≤ 0`, e.g. `setDate(0)` is the last day of
the previous month).  `fuel` bounds the number of month carries; callers
pass enough fuel for the normalization to finish (each carry changes `n`
by at least 28). -/
def jsSetDateAux : Nat → Int → Nat → Int → JSDate
  | 0, y, m, n => ⟨y, m, n.toNat⟩
  | fuel + 1, y, m, n =>
    if n ≤ 0 then
      let y' := if m = 0 then y - 1 else y
      let m' := if m = 0 then 11 else m - 1
      jsSetDateAux fuel y' m' (n + daysInMonth y' m')
    else if (daysInMonth y m : Int) < n then
      let y' := if m = 11 then y + 1 else y
      let m' := if m = 11 then 0 else m + 1
      jsSetDateAux fuel y' m' (n - daysInMonth y m)
    else ⟨y, m, n.toNat⟩

/-- JS `date.setDate(n)`. -/
def jsSetDate (x : JSDate) (n : Int) : JSDate :=
  jsSetDateAux (n.natAbs + 2) x.year x.month n

/-- JS `date.setMonth(m)`: the year absorbs `⌊m / 12⌋`, the month becomes
`m mod 12`, and the (unchanged) day-of-month is then normalized exactly as
`setDate` would (e.g. Jan 30 `setMonth(1)` is "Feb 30", i.e. Mar 1 or
Mar 2 depending on the leap year). -/
def jsSetMonth (x : JSDate) (m : Int) : JSDate :=
  let y := x.year + m.fdiv 12
  let m' := (m.emod 12).toNat
  jsSetDateAux (x.day + 2) y m' (x.day : Int)

/-- The real-calendar day after `x` (date-fns `addDays(x, 1)`). -/
def nextCalendarDay (x : JSDate) : JSDate :=
  if x.day < daysInMonth x.year x.month then ⟨x.year, x.month, x.day + 1⟩
  else if x.month = 11 then ⟨x.year + 1, 0, 1⟩
  else ⟨x.year, x.month + 1, 1⟩

/-- The real-calendar day before `x` (date-fns `addDays(x, -1)`). -/
def prevCalendarDay (x : JSDate) : JSDate :=
  if 1 < x.day then ⟨x.year, x.month, x.day - 1⟩
  else if x.month = 0 then ⟨x.year - 1, 11, daysInMonth (x.year - 1) 11⟩
  else ⟨x.year, x.month - 1, daysInMonth x.year (x.month - 1)⟩

def addDaysForward : Nat → JSDate → JSDate
  | 0, x => x
  | k + 1, x => addDaysForward k (nextCalendarDay x)

def addDaysBack : Nat → JSDate → JSDate
  | 0, x => x
  | k + 1, x => addDaysBack k (prevCalendarDay x)

/-- date-fns `addDays` on day-resolution dates. -/
def addDaysJS (x : JSDate) (n : Int) : JSDate :=
  if 0 ≤ n then addDaysForward n.toNat x else addDaysBack n.natAbs x

/-- JS `<` on `Date` objects compares timestamps; at equal time of day this
is lexicographic on (year, month, day). -/
def dateLt (a b : JSDate) : Bool :=
  if a.year = b.year then
    if a.month = b.month then decide (a.day < b.day)
    else decide (a.month < b.month)
  else decide (a.year < b.year)

/-- JS `<=` on `Date` objects (at equal time of day). -/
def dateLe (a b : JSDate) : Bool := !dateLt b a

/-- date-fns `isSameDay` on day-resolution dates. -/
def isSameDay (a b : JSDate) : Bool := decide (a = b)

/-- The rank of a date in the idealized 30-day-per-month calendar,
`(year * 12 + month) * 30 + day`, with the day-of-month taken as is
(not clamped to 30).  `getLogicalDaysDifference` computes exactly the
difference of this quantity (see `getLogicalDaysDifference_ordinal`). -/
def logicalOrdinal (d : JSDate) : Int :=
  (12 * d.year + d.month) * 30 + d.day

/-- `getLogicalDaysDifference` (identical in both service variants):
signed difference between two dates under the 30-day-month convention. -/
def getLogicalDaysDifference (startDate endDate : JSDate) : Int :=
  let isNegative := dateLt endDate startDate
  let earlierDate := if isNegative then endDate else startDate
  let laterDate := if isNegative then startDate else endDate
  let months :=
    (laterDate.year - earlierDate.year) * 12 +
      ((laterDate.month : Int) - (earlierDate.month : Int))
  let days := (laterDate.day : Int) - (earlierDate.day : Int)
  let months2 := if days < 0 then months - 1 else months
  let days2 := if days < 0 then days + 30 else days
  let result := months2 * 30 + days2
  if isNegative then -result else result

/-- `isDateSkipped` (identical in both variants). -/
def isDateSkipped (date : JSDate) (skippedDates : List JSDate) : Bool :=
  skippedDates.any (fun skippedDate => isSameDay date skippedDate)

/-- `countSkippedDatesInRange` (identical in both variants): how many
skipped dates fall in the inclusive range. -/
def countSkippedDatesInRange (startDate endDate : JSDate)
    (skippedDates : List JSDate) : Nat :=
  (skippedDates.filter
    (fun d => dateLe startDate d && dateLe d endDate)).length

/-- `calculateEffectiveDays` (identical in both variants): logical days
between two dates minus the skipped dates in the range. -/
def calculateEffectiveDays (startDate endDate : JSDate)
    (skippedDates : List JSDate) : Int :=
  getLogicalDaysDifference startDate endDate -
    countSkippedDatesInRange startDate endDate skippedDates

/-- The `while (isDateSkipped …) coverageStartDate = addDays(…, 1)` loop of
`calculatePaymentCoverageWithSkippedDates`, with explicit fuel.  The loop
visits strictly increasing and therefore pairwise distinct dates, and each
iteration needs a distinct matching member of the skip list, so
`skippedDates.length + 1` fuel always suffices to reach the fixpoint. -/
def skipForward : Nat → JSDate → List JSDate → JSDate
  | 0, d, _ => d
  | fuel + 1, d, skippedDates =>
    if isDateSkipped d skippedDates then
      skipForward fuel (nextCalendarDay d) skippedDates
    else d

/-- Loan lifecycle states. -/
inductive LoanStatus
  | ACTIVE
  | COMPLETED
  | DEFAULTED
deriving DecidableEq, Repr

/-- The loan fields read by the coverage engine.  `installments` is the
total installment count, `installmentPaymentAmmount` the base daily rate
(the source's spelling), `gpsInstallmentPayment` the add-on daily rate. -/
structure Loan where
  startDate : JSDate
  installmentPaymentAmmount : ℚ
  gpsInstallmentPayment : ℚ
  downPayment : ℚ
  installments : ℚ
  paidInstallments : ℚ
  remainingInstallments : ℚ
  totalPaid : ℚ
  debtRemaining : ℚ
  status : LoanStatus
deriving DecidableEq, Repr

/-- The total daily rate: base plus add-on (`baseDailyRate + gpsDailyRate`
in the source). -/
def totalDailyRate (loan : Loan) : ℚ :=
  loan.installmentPaymentAmmount + loan.gpsInstallmentPayment

/-- An existing installment (payment) record as read back by the ledger:
only `id`, `amount` (base) and `gps` (add-on) enter the computations. -/
structure Payment where
  id : String
  amount : ℚ
  gps : ℚ
deriving DecidableEq, Repr

/-- The loan aggregate columns written back after a payment create or
remove. -/
structure LoanAggregates where
  paidInstallments : ℚ
  remainingInstallments : ℚ
  totalPaid : ℚ
  debtRemaining : ℚ
  status : LoanStatus
deriving DecidableEq, Repr

/-- Result record of `calculatePaymentCoverage…` (both variants). -/
structure PaymentCoverage where
  daysCovered : ℚ
  coverageStartDate : JSDate
  coverageEndDate : JSDate
  isLate : Bool
  latePaymentDate : Option JSDate
deriving DecidableEq, Repr

namespace V1

/-- `addLogicalDays` of `installment.service.ts`: add `daysToAdd` logical
days under the 30-day-month convention; non-positive counts return the
start date; a start day 31 is first normalized to day 30. -/
def addLogicalDays (startDate : JSDate) (daysToAdd : Int) : JSDate :=
  if daysToAdd ≤ 0 then startDate
  else
    let currentDay0 : Int := startDate.day
    let currentDay := if currentDay0 > 30 then 30 else currentDay0
    let date := if currentDay0 > 30 then jsSetDate startDate 30 else startDate
    let daysLeftInMonth := 30 - currentDay
    if daysToAdd ≤ daysLeftInMonth then
      jsSetDate date (currentDay + daysToAdd)
    else
      let remainingDays := daysToAdd - (daysLeftInMonth + 1)
      let date := jsSetDate (jsSetMonth date ((date.month : Int) + 1)) 1
      let fullMonths := remainingDays / 30
      let remainingDays := remainingDays % 30
      let date :=
        if fullMonths > 0 then jsSetMonth date ((date.month : Int) + fullMonths)
        else date
      let date :=
        if remainingDays > 0 then jsSetDate date ((date.day : Int) + remainingDays)
        else date
      date

/-- `getLastCoveredDate` of `installment.service.ts`: the ledger position.
`payments` is the loan's non-deleted payment list in `createdAt`-ascending
order (the source's query); `excludeInstallmentId` reproduces the
`id: { not: … }` filter; `skippedResult` is the outcome of the
skipped-date resolver call, whose failure the source catches and treats as
an empty list. -/
def getLastCoveredDate (loan : Loan) (payments : List Payment)
    (excludeInstallmentId : Option String)
    (skippedResult : Except Unit (List JSDate)) : JSDate :=
  let existingPayments :=
    match excludeInstallmentId with
    | some i => payments.filter (fun p : Payment => p.id != i)
    | none => payments
  let skippedDates :=
    match skippedResult with
    | .ok ds => ds
    | .error _ => ([] : List JSDate)
  let loanStartDate := loan.startDate
  let downPayment := loan.downPayment
  let daysCoveredByDownPayment :=
    if 0 < totalDailyRate loan ∧ 0 < downPayment then
      downPayment / totalDailyRate loan
    else 0
  let totalWorkingDaysCovered :=
    existingPayments.foldl
      (fun acc payment => acc + (payment.amount + payment.gps) / totalDailyRate loan)
      daysCoveredByDownPayment
  if totalWorkingDaysCovered = 0 then loanStartDate
  else
    let fullDaysToCount := Rat.floor totalWorkingDaysCovered
    let lastCoveredDate := addLogicalDays loanStartDate fullDaysToCount
    let skippedInRange :=
      countSkippedDatesInRange loanStartDate lastCoveredDate skippedDates
    if 0 < skippedInRange then
      addLogicalDays lastCoveredDate (skippedInRange : Int)
    else lastCoveredDate

/-- `calculatePaymentCoverageWithSkippedDates` of `installment.service.ts`
(`startOfDay` is the identity at day resolution, so `today` is
`paymentDate` itself). -/
def calculatePaymentCoverageWithSkippedDates (paymentAmount dailyRate : ℚ)
    (lastCoveredDate paymentDate : JSDate)
    (skippedDates : List JSDate) : PaymentCoverage :=
  let daysCovered := paymentAmount / dailyRate
  let coverageStartDate :=
    skipForward (skippedDates.length + 1) (nextCalendarDay lastCoveredDate)
      skippedDates
  let wholeDays := Rat.floor daysCovered
  let coverageEndDate :=
    if 0 < wholeDays then addLogicalDays coverageStartDate (wholeDays - 1)
    else if 0 < daysCovered then coverageStartDate
    else coverageStartDate
  let skippedInRange :=
    countSkippedDatesInRange coverageStartDate coverageEndDate skippedDates
  let coverageEndDate2 :=
    if 0 < skippedInRange then
      addLogicalDays coverageEndDate (skippedInRange : Int)
    else coverageEndDate
  let today := paymentDate
  let isLate := dateLe coverageStartDate today
  let latePaymentDate := if isLate then some coverageStartDate else none
  { daysCovered := daysCovered, coverageStartDate := coverageStartDate,
    coverageEndDate := coverageEndDate2, isLate := isLate,
    latePaymentDate := latePaymentDate }

end V1

/-- The payload of the public `calculateCoverage` preview endpoint (the
presentation-only `loanId` string and the ISO formatting are dropped;
`skippedDatesShown` is the `slice(0, 10)` of the resolved list). -/
structure CoveragePreview where
  dailyRate : ℚ
  loanStartDate : JSDate
  lastCoveredDate : JSDate
  paymentAmount : ℚ
  daysCovered : ℚ
  coverageStartDate : JSDate
  coverageEndDate : JSDate
  isLate : Bool
  latePaymentDate : Option JSDate
  daysBehind : Int
  amountNeededToCatchUp : ℚ
  willBeCurrentAfterPayment : Bool
  daysAheadAfterPayment : ℚ
  skippedDatesCount : Nat
  skippedDatesShown : List JSDate
deriving DecidableEq, Repr

namespace V1

/-- `calculateCoverage` of `installment.service.ts`: the read-only coverage
preview.  A missing loan is the `NotFoundException`; the resolver failure
is caught and treated as an empty skip list. -/
def calculateCoverage (amount : ℚ) (excludeInstallmentId : Option String)
    (loanOpt : Option Loan) (payments : List Payment)
    (skippedResult : Except Unit (List JSDate)) (today : JSDate) :
    Except Unit CoveragePreview :=
  match loanOpt with
  | none => .error ()
  | some loan =>
    let skippedDates :=
      match skippedResult with
      | .ok ds => ds
      | .error _ => ([] : List JSDate)
    let lastCoveredDate :=
      getLastCoveredDate loan payments excludeInstallmentId skippedResult
    let coverage :=
      calculatePaymentCoverageWithSkippedDates amount (totalDailyRate loan)
        lastCoveredDate today skippedDates
    let effectiveDaysFromLastCoveredToToday :=
      calculateEffectiveDays lastCoveredDate today skippedDates
    let daysBehind := max 0 effectiveDaysFromLastCoveredToToday
    let amountNeededToCatchUp : ℚ := (daysBehind : ℚ) * totalDailyRate loan
    let skippedDatesInPeriod :=
      countSkippedDatesInRange lastCoveredDate today skippedDates
    .ok { dailyRate := totalDailyRate loan, loanStartDate := loan.startDate,
          lastCoveredDate := lastCoveredDate, paymentAmount := amount,
          daysCovered := coverage.daysCovered,
          coverageStartDate := coverage.coverageStartDate,
          coverageEndDate := coverage.coverageEndDate,
          isLate := coverage.isLate,
          latePaymentDate := coverage.latePaymentDate,
          daysBehind := daysBehind,
          amountNeededToCatchUp := amountNeededToCatchUp,
          willBeCurrentAfterPayment := decide (amountNeededToCatchUp ≤ amount),
          daysAheadAfterPayment := coverage.daysCovered - (daysBehind : ℚ),
          skippedDatesCount := skippedDatesInPeriod,
          skippedDatesShown := skippedDates.take 10 }

/-- The loan-aggregate update performed at the end of `create` in
`installment.service.ts`: fractional installments from the total payment,
remaining clamped at 0, base amount applied to `totalPaid` / `debtRemaining`
(also clamped), completion when debt or remaining reaches 0. -/
def createAggregateUpdate (loan : Loan) (amount gps : ℚ) : LoanAggregates :=
  let totalPaymentAmount := amount + gps
  let fractionalInstallmentsPaid := totalPaymentAmount / totalDailyRate loan
  let updatedPaid := loan.paidInstallments + fractionalInstallmentsPaid
  let updatedRemaining := max 0 (loan.installments - updatedPaid)
  let updatedTotalPaid := loan.totalPaid + amount
  let updatedDebt := max 0 (loan.debtRemaining - amount)
  let newStatus :=
    if updatedDebt ≤ 0 ∨ updatedRemaining ≤ 0 then LoanStatus.COMPLETED
    else LoanStatus.ACTIVE
  { paidInstallments := updatedPaid, remainingInstallments := updatedRemaining,
    totalPaid := updatedTotalPaid, debtRemaining := updatedDebt,
    status := newStatus }

/-- The loan-aggregate update performed by `remove` in
`installment.service.ts` when the installment is deleted (the
`loan.installmentPaymentAmmount || …` fallback fires on a zero/absent base
rate). -/
def removeAggregateUpdate (loan : Loan) (installment : Payment) : LoanAggregates :=
  let installmentAmount :=
    if loan.installmentPaymentAmmount = 0 then
      loan.debtRemaining / loan.remainingInstallments
    else loan.installmentPaymentAmmount
  let fractionalInstallmentsPaid := installment.amount / installmentAmount
  let updatedPaid := max 0 (loan.paidInstallments - fractionalInstallmentsPaid)
  let updatedRemaining := loan.installments - updatedPaid
  let updatedTotalPaid := max 0 (loan.totalPaid - installment.amount)
  let updatedDebt := loan.debtRemaining + installment.amount
  let newStatus :=
    if updatedDebt ≤ 0 ∨ updatedRemaining ≤ 0 then LoanStatus.COMPLETED
    else LoanStatus.ACTIVE
  { paidInstallments := updatedPaid, remainingInstallments := updatedRemaining,
    totalPaid := updatedTotalPaid, debtRemaining := updatedDebt,
    status := newStatus }

end V1


namespace V2

/-- `addLogicalDays` of the later service variant: no day-31
pre-normalization; the month rollover keeps the current day (letting JS
`setMonth` normalization fire), and a zero remainder selects day 30. -/
def addLogicalDays (startDate : JSDate) (daysToAdd : Int) : JSDate :=
  if daysToAdd = 0 then startDate
  else
    let currentDay : Int := startDate.day
    let daysLeftInCurrentMonth := 30 - currentDay
    if daysToAdd ≤ daysLeftInCurrentMonth then
      jsSetDate startDate (currentDay + daysToAdd)
    else
      let remainingDays := daysToAdd - daysLeftInCurrentMonth
      let result := jsSetMonth startDate ((startDate.month : Int) + 1)
      let fullMonths := remainingDays / 30
      let finalDays := remainingDays % 30
      let result2 := jsSetMonth result ((result.month : Int) + fullMonths)
      jsSetDate result2 (if finalDays = 0 then 30 else finalDays)

/-- The ledger position returned by the later `getLastCoveredDate`: the
covered-through date plus the exact fractional days-covered total. -/
structure LedgerPosition where
  lastCoveredDate : JSDate
  totalDaysCovered : ℚ
deriving DecidableEq, Repr

/-- `getLastCoveredDate` of the later variant: the start date is "day 0,
free", so the first paid day is the real-calendar day after the start and
the provisional position is `firstPaidDay + (fullDays - 1)` logical days,
then the single-pass skipped-date extension. -/
def getLastCoveredDate (loan : Loan) (payments : List Payment)
    (excludeInstallmentId : Option String)
    (skippedResult : Except Unit (List JSDate)) : LedgerPosition :=
  let existingPayments :=
    match excludeInstallmentId with
    | some i => payments.filter (fun p : Payment => p.id != i)
    | none => payments
  let skippedDates :=
    match skippedResult with
    | .ok ds => ds
    | .error _ => ([] : List JSDate)
  let loanStartDate := loan.startDate
  let downPayment := loan.downPayment
  let daysCoveredByDownPayment :=
    if 0 < totalDailyRate loan ∧ 0 < downPayment then
      downPayment / totalDailyRate loan
    else 0
  let totalWorkingDaysCovered :=
    existingPayments.foldl
      (fun acc payment => acc + (payment.amount + payment.gps) / totalDailyRate loan)
      daysCoveredByDownPayment
  if totalWorkingDaysCovered = 0 then
    { lastCoveredDate := loanStartDate, totalDaysCovered := 0 }
  else
    let fullDaysToCount := Rat.floor totalWorkingDaysCovered
    let firstPaidDay := addDaysJS loanStartDate 1
    let lastCoveredDate := addLogicalDays firstPaidDay (fullDaysToCount - 1)
    let skippedInRange :=
      countSkippedDatesInRange loanStartDate lastCoveredDate skippedDates
    let lastCoveredDate2 :=
      if 0 < skippedInRange then
        addLogicalDays lastCoveredDate (skippedInRange : Int)
      else lastCoveredDate
    { lastCoveredDate := lastCoveredDate2,
      totalDaysCovered := totalWorkingDaysCovered }

/-- `calculatePaymentCoverageWithSkippedDates` of the later variant
(same text as V1 but over this variant's `addLogicalDays`). -/
def calculatePaymentCoverageWithSkippedDates (paymentAmount dailyRate : ℚ)
    (lastCoveredDate paymentDate : JSDate)
    (skippedDates : List JSDate) : PaymentCoverage :=
  let daysCovered := paymentAmount / dailyRate
  let coverageStartDate :=
    skipForward (skippedDates.length + 1) (nextCalendarDay lastCoveredDate)
      skippedDates
  let wholeDays := Rat.floor daysCovered
  let coverageEndDate :=
    if 0 < wholeDays then addLogicalDays coverageStartDate (wholeDays - 1)
    else if 0 < daysCovered then coverageStartDate
    else coverageStartDate
  let skippedInRange :=
    countSkippedDatesInRange coverageStartDate coverageEndDate skippedDates
  let coverageEndDate2 :=
    if 0 < skippedInRange then
      addLogicalDays coverageEndDate (skippedInRange : Int)
    else coverageEndDate
  let today := paymentDate
  let isLate := dateLe coverageStartDate today
  let latePaymentDate := if isLate then some coverageStartDate else none
  { daysCovered := daysCovered, coverageStartDate := coverageStartDate,
    coverageEndDate := coverageEndDate2, isLate := isLate,
    latePaymentDate := latePaymentDate }

/-- The `totalDaysCoveredBeforePayment` block of `create`: down-payment
days (guarded) plus each existing payment's `(amount + gps) / rate`. -/
def totalDaysCoveredBeforePayment (loan : Loan) (payments : List Payment) : ℚ :=
  payments.foldl
    (fun acc payment => acc + (payment.amount + payment.gps) / totalDailyRate loan)
    (if 0 < totalDailyRate loan ∧ 0 < loan.downPayment then
      loan.downPayment / totalDailyRate loan
    else 0)

/-- The `daysOwedBeforePayment` block of `create`: logical days from the
loan start to `yesterday = addDays(today, -1)` minus the skipped dates in
that span (the obligation for "today" has not yet accrued). -/
def daysOwedBeforePayment (loanStartDate today : JSDate)
    (skippedDates : List JSDate) : ℚ :=
  let yesterday := addDaysJS today (-1)
  ((getLogicalDaysDifference loanStartDate yesterday : Int) : ℚ) -
    (countSkippedDatesInRange loanStartDate yesterday skippedDates : ℚ)

/-- The fields of `CreateInstallmentDto` consumed by `create`; the `Option`
fields model the DTO's optional overrides (`undefined` = `none`). -/
structure CreateInstallmentDto where
  amount : ℚ
  gps : ℚ
  storeId : Option String
  paymentDate : Option JSDate
  isLate : Option Bool
  latePaymentDate : Option JSDate
  isAdvance : Option Bool
  advancePaymentDate : Option JSDate
deriving DecidableEq, Repr

/-- The exceptions `create` can throw before writing anything. -/
inductive CreateError
  | storeIdRequired
  | loanNotFound
  | terminalState (status : LoanStatus)
  | exceedsDebt
deriving DecidableEq, Repr

/-- The installment record written by `create`, including the frozen debt
snapshot and post-payment status fields. -/
structure NewInstallment where
  amount : ℚ
  gps : ℚ
  paymentDate : JSDate
  latePaymentDate : Option JSDate
  isAdvance : Bool
  advancePaymentDate : JSDate
  isLate : Bool
  exactInstallmentsOwed : ℚ
  remainingAmountOwed : ℚ
  daysBehind : ℚ
  daysAhead : ℚ
  isUpToDate : Bool
  daysCoveredByPayment : ℚ
  remainingAmountOwedAfter : ℚ
deriving DecidableEq, Repr

/-- The loan columns written by `create`'s final `loan.update`. -/
structure LoanUpdate where
  paidInstallments : ℚ
  remainingInstallments : ℚ
  totalPaid : ℚ
  debtRemaining : ℚ
  status : LoanStatus
  lastCoveredDate : JSDate
deriving DecidableEq, Repr

/-- What a successful `create` persists: the new installment record and
the updated loan aggregates. -/
structure CreateResult where
  installment : NewInstallment
  loanUpdate : LoanUpdate
deriving DecidableEq, Repr

/-- `dto.storeId || userStoreId`. -/
def resolvedStoreId (dtoStoreId userStoreId : Option String) : Option String :=
  match dtoStoreId with
  | some s => some s
  | none => userStoreId

/-- `create` of the later service variant, as a pure function of the
pre-state: the loan lookup result, the loan's existing payments in
creation order, the skipped-date resolver outcome (failure is caught and
treated as an empty list) and "today".  All validations run before any
write, so a thrown error leaves both tables untouched; the success value
carries exactly what is written. -/
def create (dto : CreateInstallmentDto) (userStoreId : Option String)
    (loanOpt : Option Loan) (payments : List Payment)
    (skippedResult : Except Unit (List JSDate)) (today : JSDate) :
    Except CreateError CreateResult :=
  if resolvedStoreId dto.storeId userStoreId = none then
    .error .storeIdRequired
  else
    match loanOpt with
    | none => .error .loanNotFound
    | some loan =>
      if loan.status = LoanStatus.COMPLETED ∨ loan.status = LoanStatus.DEFAULTED then
        .error (.terminalState loan.status)
      else if dto.amount > loan.debtRemaining then
        .error .exceedsDebt
      else
        let totalPaymentAmount := dto.amount + dto.gps
        let lastCoveredDate :=
          (getLastCoveredDate loan payments none skippedResult).lastCoveredDate
        let skippedDates :=
          match skippedResult with
          | .ok ds => ds
          | .error _ => ([] : List JSDate)
        let paymentDate := dto.paymentDate.getD today
        let coverage :=
          calculatePaymentCoverageWithSkippedDates totalPaymentAmount
            (totalDailyRate loan) lastCoveredDate paymentDate skippedDates
        let isLate := dto.isLate.getD coverage.isLate
        let latePaymentDate :=
          match dto.latePaymentDate with
          | some d => some d
          | none => coverage.latePaymentDate
        let isAdvance := dto.isAdvance.getD (dateLe today coverage.coverageEndDate)
        let advancePaymentDate := dto.advancePaymentDate.getD coverage.coverageEndDate
        let totalDaysCoveredBefore := totalDaysCoveredBeforePayment loan payments
        let daysOwed := daysOwedBeforePayment loan.startDate today skippedDates
        let exactInstallmentsOwedBefore := max 0 (daysOwed - totalDaysCoveredBefore)
        let remainingAmountOwedBefore := exactInstallmentsOwedBefore * totalDailyRate loan
        let daysCoveredByThisPayment := totalPaymentAmount / totalDailyRate loan
        let totalDaysCoveredAfterPayment := totalDaysCoveredBefore + daysCoveredByThisPayment
        let netPosition := totalDaysCoveredAfterPayment - daysOwed
        let daysBehindAfterPayment := if netPosition < 0 then |netPosition| else 0
        let daysAheadAfterPayment := if netPosition > 0 then netPosition else 0
        let isUpToDate := decide (|netPosition| < 1 / 100)
        let remainingAmountOwedAfterPayment := daysBehindAfterPayment * totalDailyRate loan
        let installment : NewInstallment :=
          { amount := dto.amount, gps := dto.gps, paymentDate := paymentDate,
            latePaymentDate := latePaymentDate, isAdvance := isAdvance,
            advancePaymentDate := advancePaymentDate, isLate := isLate,
            exactInstallmentsOwed := exactInstallmentsOwedBefore,
            remainingAmountOwed := remainingAmountOwedBefore,
            daysBehind := daysBehindAfterPayment,
            daysAhead := daysAheadAfterPayment,
            isUpToDate := isUpToDate,
            daysCoveredByPayment := daysCoveredByThisPayment,
            remainingAmountOwedAfter := remainingAmountOwedAfterPayment }
        let fractionalInstallmentsPaid := totalPaymentAmount / totalDailyRate loan
        let updatedPaid := loan.paidInstallments + fractionalInstallmentsPaid
        let updatedRemaining := max 0 (loan.installments - updatedPaid)
        let updatedTotalPaid := loan.totalPaid + dto.amount
        let updatedDebt := max 0 (loan.debtRemaining - dto.amount)
        let newStatus :=
          if updatedDebt ≤ 0 ∨ updatedRemaining ≤ 0 then LoanStatus.COMPLETED
          else LoanStatus.ACTIVE
        let newLastCoveredDate :=
          (getLastCoveredDate loan
            (payments ++ [{ id := "", amount := dto.amount, gps := dto.gps }])
            none skippedResult).lastCoveredDate
        .ok { installment := installment,
              loanUpdate :=
                { paidInstallments := updatedPaid,
                  remainingInstallments := updatedRemaining,
                  totalPaid := updatedTotalPaid,
                  debtRemaining := updatedDebt,
                  status := newStatus,
                  lastCoveredDate := newLastCoveredDate } }

end V2

namespace SpecModel

/-- Spec-side rendering of claim C2 (spec §4.3), to be compared with
`V1.getLastCoveredDate`: the fractional `totalDaysCovered` is the down
payment over the total daily rate plus each non-deleted payment's
`(amount + gps)` over the total daily rate in creation order; a zero total
yields the start date, otherwise the start date advanced by
`⌊totalDaysCovered⌋` logical days and then by the count of skipped dates
in `[startDate, provisional]` (one single extension). -/
def ledgerPosition (loan : Loan) (payments : List Payment)
    (skippedDates : List JSDate) : JSDate :=
  let totalDaysCovered :=
    payments.foldl
      (fun acc payment => acc + (payment.amount + payment.gps) / totalDailyRate loan)
      (loan.downPayment / totalDailyRate loan)
  if totalDaysCovered = 0 then loan.startDate
  else
    let provisional :=
      V1.addLogicalDays loan.startDate (Rat.floor totalDaysCovered)
    V1.addLogicalDays provisional
      ((countSkippedDatesInRange loan.startDate provisional skippedDates : Nat) : Int)

end SpecModel

/-- Modelled from the spec: the loan-configuration validation required by
§7 ("the core should reject loan configurations with non-positive daily
rate before any coverage math runs").  The loan-creation service itself is
not among the sources here; this models only the rate guard it must
apply. -/
def validateLoanConfiguration (loan : Loan) : Except String Loan :=
  if totalDailyRate loan ≤ 0 then
    .error "loan configuration rejected: non-positive daily rate"
  else .ok loan

/-! ## Concrete instances used by counterexamples and witnesses -/

/-- Loan exhibiting the conservation failure of claim C4: 10 installments
of 1000/10 = 100 each, untouched. -/
def loanC4 : Loan :=
  { startDate := ⟨2024, 0, 1⟩, installmentPaymentAmmount := 100,
    gpsInstallmentPayment := 0, downPayment := 0, installments := 10,
    paidInstallments := 0, remainingInstallments := 10, totalPaid := 0,
    debtRemaining := 1000, status := .ACTIVE }

/-- Loan exhibiting the monotonicity failure of claim C6: daily rate 1,
started Jan 1 2023. -/
def loanC6 : Loan :=
  { startDate := ⟨2023, 0, 1⟩, installmentPaymentAmmount := 1,
    gpsInstallmentPayment := 0, downPayment := 0, installments := 1000,
    paidInstallments := 0, remainingInstallments := 1000, totalPaid := 0,
    debtRemaining := 1000000, status := .ACTIVE }

/-- Witness loan for claim C2. -/
def loanC2w : Loan :=
  { startDate := ⟨2024, 0, 10⟩, installmentPaymentAmmount := 8,
    gpsInstallmentPayment := 2, downPayment := 20, installments := 300,
    paidInstallments := 0, remainingInstallments := 300, totalPaid := 0,
    debtRemaining := 2400, status := .ACTIVE }

/-- Witness loan for claim C3. -/
def loanC3w : Loan :=
  { startDate := ⟨2024, 0, 1⟩, installmentPaymentAmmount := 10,
    gpsInstallmentPayment := 0, downPayment := 0, installments := 10,
    paidInstallments := 0, remainingInstallments := 10, totalPaid := 0,
    debtRemaining := 100, status := .ACTIVE }

/-- Witness DTO for claim C3. -/
def dtoC3w : V2.CreateInstallmentDto :=
  { amount := 10, gps := 0, storeId := some "store", paymentDate := none,
    isLate := none, latePaymentDate := none, isAdvance := none,
    advancePaymentDate := none }

/-- Witness DTO for claim C7. -/
def dtoC7w : V2.CreateInstallmentDto :=
  { amount := 10, gps := 0, storeId := some "store", paymentDate := none,
    isLate := none, latePaymentDate := none, isAdvance := none,
    advancePaymentDate := none }

/-- Witness loan (terminal state) for claim C7. -/
def loanC7completed : Loan :=
  { startDate := ⟨2024, 0, 1⟩, installmentPaymentAmmount := 10,
    gpsInstallmentPayment := 0, downPayment := 0, installments := 10,
    paidInstallments := 10, remainingInstallments := 0, totalPaid := 100,
    debtRemaining := 0, status := .COMPLETED }

/-- Witness loan (active, small remaining debt) for claim C7. -/
def loanC7active : Loan :=
  { startDate := ⟨2024, 0, 1⟩, installmentPaymentAmmount := 10,
    gpsInstallmentPayment := 0, downPayment := 0, installments := 10,
    paidInstallments := 9, remainingInstallments := 1, totalPaid := 95,
    debtRemaining := 5, status := .ACTIVE }

/-- Witness loan for claim C9. -/
def loanC9w : Loan :=
  { startDate := ⟨2024, 0, 1⟩, installmentPaymentAmmount := 100,
    gpsInstallmentPayment := 5, downPayment := 0, installments := 10,
    paidInstallments := 0, remainingInstallments := 10, totalPaid := 0,
    debtRemaining := 1000, status := .ACTIVE }

/-- Witness loan for claim C10. -/
def loanC10w : Loan :=
  { startDate := ⟨2024, 0, 1⟩, installmentPaymentAmmount := 10,
    gpsInstallmentPayment := 0, downPayment := 0, installments := 10,
    paidInstallments := 2, remainingInstallments := 8, totalPaid := 20,
    debtRemaining := 80, status := .ACTIVE }

/-- Witness DTO for claim C10: a strictly negative payment amount. -/
def dtoC10w : V2.CreateInstallmentDto :=
  { amount := -5, gps := 0, storeId := some "store", paymentDate := none,
    isLate := none, latePaymentDate := none, isAdvance := none,
    advancePaymentDate := none }

/-! ## Helper lemmas -/

/-- `Rat.floor` agrees with the `Int.floor` of the `FloorRing ℚ` instance
(which is built from it). -/
theorem ratFloor_eq_intFloor (q : ℚ) : Rat.floor q = ⌊q⌋ := rfl

/-- Adding zero logical days (V1) returns the start date. -/
theorem V1.addLogicalDays_zero (x : JSDate) : V1.addLogicalDays x 0 = x := by
  simp [V1.addLogicalDays]

/-- `if n < 0 then |n| else 0` is `max 0 (-n)` over `ℚ`. -/
theorem ite_neg_abs_eq_max (n : ℚ) : (if n < 0 then |n| else 0) = max 0 (-n) := by
  rcases le_or_lt 0 n with h | h
  · rw [if_neg (not_lt.mpr h), max_eq_left (neg_nonpos.mpr h)]
  · rw [if_pos h, abs_of_neg h, max_eq_right (le_of_lt (neg_pos.mpr h))]

/-- `if n > 0 then n else 0` is `max 0 n` over `ℚ`. -/
theorem ite_pos_eq_max (n : ℚ) : (if n > 0 then n else 0) = max 0 n := by
  rcases le_or_lt n 0 with h | h
  · rw [if_neg (not_lt.mpr h), max_eq_left h]
  · rw [if_pos h, max_eq_right h.le]
/-- `getLogicalDaysDifference` always returns the difference of the raw
30-day ordinals of its two arguments: the direction swap and the month
borrow are arithmetic no-ops. -/
theorem getLogicalDaysDifference_ordinal (a b : JSDate) :
    getLogicalDaysDifference a b = logicalOrdinal b - logicalOrdinal a := by
  unfold getLogicalDaysDifference logicalOrdinal
  by_cases h : dateLt b a <;> simp only [h] <;> split_ifs <;> omega

/-- C1.  The claim fails on the code: the two operations are not inverse
on all valid dates.
* May 31 2024 `+ 1` logical day is Jun 1, but the difference comes out 0
  (the day-31 start is normalized to day 30 by `addLogicalDays` and not by
  `getLogicalDaysDifference`);
* Feb 10 2023 `+ 19` lands on JS "Feb 29 2023" = Mar 1, difference 21;
* Jan 30 2023 `+ 1` goes through JS "Feb 30 2023" = Mar 2 before
  `setDate(1)`, landing on Mar 1, difference 31. -/
theorem C1_counterexample :
    getLogicalDaysDifference ⟨2024, 4, 31⟩ (V1.addLogicalDays ⟨2024, 4, 31⟩ 1) ≠ 1 ∧
    getLogicalDaysDifference ⟨2023, 1, 10⟩ (V1.addLogicalDays ⟨2023, 1, 10⟩ 19) ≠ 19 ∧
    getLogicalDaysDifference ⟨2023, 0, 30⟩ (V1.addLogicalDays ⟨2023, 0, 30⟩ 1) ≠ 1 := by
  refine ⟨?_, ?_, ?_⟩ <;> decide

/-- C1 (amended).  `getLogicalDaysDifference d (addLogicalDays d n) = n`
holds exactly when `addLogicalDays` advanced the raw 30-day ordinal
`(year * 12 + month) * 30 + day` of `d` by exactly `n` — that is, whenever
the start day is at most 30 and no real-calendar overflow (a nonexistent
date such as Feb 29/30 in a non-leap year) perturbed the computation. -/
theorem C1_inverse_iff_ordinal (d : JSDate) (n : Int) :
    getLogicalDaysDifference d (V1.addLogicalDays d n) = n ↔
      logicalOrdinal (V1.addLogicalDays d n) = logicalOrdinal d + n := by
  rw [getLogicalDaysDifference_ordinal]
  omega

/-- C2.  `getLastCoveredDate` computes exactly the ledger position stated
by the spec: with a positive total daily rate and a non-negative down
payment, a zero fractional `totalDaysCovered` yields the start date, and
otherwise the start date advanced by `⌊totalDaysCovered⌋` logical days and
then, in one single extension, by the count of skipped dates between the
start date and that provisional date. -/
theorem C2_ledger_refines_spec (loan : Loan) (payments : List Payment)
    (skippedDates : List JSDate)
    (hrate : 0 < totalDailyRate loan) (hdp : 0 ≤ loan.downPayment) :
    V1.getLastCoveredDate loan payments none (Except.ok skippedDates) =
      SpecModel.ledgerPosition loan payments skippedDates := by
  have hguard :
      (if 0 < totalDailyRate loan ∧ 0 < loan.downPayment then
        loan.downPayment / totalDailyRate loan else 0) =
      loan.downPayment / totalDailyRate loan := by
    rcases eq_or_lt_of_le hdp with h0 | h0
    · simp [← h0]
    · simp [hrate, h0]
  simp only [V1.getLastCoveredDate, SpecModel.ledgerPosition, hguard]
  by_cases hT :
      payments.foldl
        (fun acc payment => acc + (payment.amount + payment.gps) / totalDailyRate loan)
        (loan.downPayment / totalDailyRate loan) = 0
  · simp [hT]
  · simp only [hT, if_neg, if_false, ite_false]
    by_cases hc :
        countSkippedDatesInRange loan.startDate
          (V1.addLogicalDays loan.startDate
            (Rat.floor
              (payments.foldl
                (fun acc payment => acc + (payment.amount + payment.gps) / totalDailyRate loan)
                (loan.downPayment / totalDailyRate loan))))
          skippedDates = 0
    · simp [hc, V1.addLogicalDays_zero]
    · simp [Nat.pos_of_ne_zero hc]

/-- C2 witness: the refinement at a concrete loan, payment list and skip
set. -/
theorem C2_ledger_refines_spec_witness :
    V1.getLastCoveredDate loanC2w [⟨"w1", 25, 5⟩] none
        (Except.ok [⟨2024, 0, 11⟩]) =
      SpecModel.ledgerPosition loanC2w [⟨"w1", 25, 5⟩] [⟨2024, 0, 11⟩] :=
  C2_ledger_refines_spec loanC2w [⟨"w1", 25, 5⟩] [⟨2024, 0, 11⟩]
    (by norm_num [totalDailyRate, loanC2w]) (by norm_num [loanC2w])

/-- C3.  On a successful payment creation the frozen post-payment status
satisfies `daysBehindAfter = max 0 (-netPosition)`,
`daysAheadAfter = max 0 netPosition` and
`isUpToDateAfter ↔ |netPosition| < 0.01`, where
`netPosition = totalDaysCoveredAfter - daysOwedThroughYesterday`,
`totalDaysCoveredAfter` adds this payment's `(amount + gps) / dailyRate`
to the pre-payment coverage total, and `daysOwedThroughYesterday` is the
logical-day span from the start date to the day before today minus the
skipped dates in that span. -/
theorem C3_post_payment_status (dto : V2.CreateInstallmentDto)
    (userStoreId : Option String) (loan : Loan) (payments : List Payment)
    (skippedDates : List JSDate) (today : JSDate)
    (hstore : V2.resolvedStoreId dto.storeId userStoreId ≠ none)
    (hstatus : loan.status = LoanStatus.ACTIVE)
    (hamount : dto.amount ≤ loan.debtRemaining) :
    ∃ r, V2.create dto userStoreId (some loan) payments (Except.ok skippedDates) today =
        Except.ok r ∧
      r.installment.daysBehind =
        max 0 (-(V2.totalDaysCoveredBeforePayment loan payments +
          (dto.amount + dto.gps) / totalDailyRate loan -
          V2.daysOwedBeforePayment loan.startDate today skippedDates)) ∧
      r.installment.daysAhead =
        max 0 (V2.totalDaysCoveredBeforePayment loan payments +
          (dto.amount + dto.gps) / totalDailyRate loan -
          V2.daysOwedBeforePayment loan.startDate today skippedDates) ∧
      (r.installment.isUpToDate = true ↔
        |V2.totalDaysCoveredBeforePayment loan payments +
          (dto.amount + dto.gps) / totalDailyRate loan -
          V2.daysOwedBeforePayment loan.startDate today skippedDates| < 1 / 100) := by
  have hterm : ¬ (loan.status = LoanStatus.COMPLETED ∨ loan.status = LoanStatus.DEFAULTED) := by
    simp [hstatus]
  have hlt : ¬ (dto.amount > loan.debtRemaining) := not_lt.mpr hamount
  simp only [V2.create, if_neg hstore, if_neg hterm, if_neg hlt]
  refine ⟨_, rfl, ?_, ?_, ?_⟩
  · exact ite_neg_abs_eq_max _
  · exact ite_pos_eq_max _
  · simp

/-- C3 witness: a concrete successful creation. -/
theorem C3_post_payment_status_witness :
    ∃ r, V2.create dtoC3w none (some loanC3w) [] (Except.ok []) ⟨2024, 0, 5⟩ =
        Except.ok r ∧
      r.installment.daysBehind =
        max 0 (-(V2.totalDaysCoveredBeforePayment loanC3w [] +
          (dtoC3w.amount + dtoC3w.gps) / totalDailyRate loanC3w -
          V2.daysOwedBeforePayment loanC3w.startDate ⟨2024, 0, 5⟩ [])) ∧
      r.installment.daysAhead =
        max 0 (V2.totalDaysCoveredBeforePayment loanC3w [] +
          (dtoC3w.amount + dtoC3w.gps) / totalDailyRate loanC3w -
          V2.daysOwedBeforePayment loanC3w.startDate ⟨2024, 0, 5⟩ []) ∧
      (r.installment.isUpToDate = true ↔
        |V2.totalDaysCoveredBeforePayment loanC3w [] +
          (dtoC3w.amount + dtoC3w.gps) / totalDailyRate loanC3w -
          V2.daysOwedBeforePayment loanC3w.startDate ⟨2024, 0, 5⟩ []| < 1 / 100) :=
  C3_post_payment_status dtoC3w none loanC3w [] [] ⟨2024, 0, 5⟩
    (by simp [V2.resolvedStoreId, dtoC3w]) rfl (by norm_num [dtoC3w, loanC3w])

/-- C4.  The conservation claim fails on the code: from a fully consistent
ACTIVE loan (10 installments of 100, debt 1000), a single validated
payment of 1000 base plus 500 gps adds 15 fractional installments, the
remaining count clamps at 0, and `paid + remaining = 15 ≠ 10`, an error of
5 — far outside the `1e-6` tolerance. -/
theorem C4_conservation_counterexample :
    loanC4.status = LoanStatus.ACTIVE ∧
    (1000 : ℚ) ≤ loanC4.debtRemaining ∧
    (V1.createAggregateUpdate loanC4 1000 500).paidInstallments +
      (V1.createAggregateUpdate loanC4 1000 500).remainingInstallments = 15 ∧
    loanC4.installments = 10 ∧
    ¬ |(15 : ℚ) - 10| < 1 / 1000000 := by
  refine ⟨rfl, by norm_num [loanC4], ?_, rfl, by norm_num⟩
  norm_num [V1.createAggregateUpdate, loanC4, totalDailyRate]

/-- C4 (amended).  Conservation holds exactly after every delete
(`remainingInstallments` is recomputed unclamped as
`installments - paid`), and after a create exactly when the updated paid
total does not exceed `totalInstallments`; an overpaying create engages
the `max(0, …)` clamp on the remaining count and breaks conservation by
the excess. -/
theorem C4_conservation_amended :
    (∀ (loan : Loan) (amount gps : ℚ),
      loan.paidInstallments + (amount + gps) / totalDailyRate loan ≤ loan.installments →
      (V1.createAggregateUpdate loan amount gps).paidInstallments +
        (V1.createAggregateUpdate loan amount gps).remainingInstallments =
        loan.installments) ∧
    (∀ (loan : Loan) (installment : Payment),
      (V1.removeAggregateUpdate loan installment).paidInstallments +
        (V1.removeAggregateUpdate loan installment).remainingInstallments =
        loan.installments) := by
  constructor
  · intro loan amount gps h
    simp only [V1.createAggregateUpdate]
    rw [max_eq_right (by linarith)]
    ring
  · intro loan installment
    simp only [V1.removeAggregateUpdate]
    ring

/-- C4 witness: the amended conservation at a concrete create and a
concrete delete. -/
theorem C4_conservation_amended_witness :
    (V1.createAggregateUpdate loanC4 30 0).paidInstallments +
      (V1.createAggregateUpdate loanC4 30 0).remainingInstallments =
      loanC4.installments ∧
    (V1.removeAggregateUpdate loanC4 ⟨"w", 50, 0⟩).paidInstallments +
      (V1.removeAggregateUpdate loanC4 ⟨"w", 50, 0⟩).remainingInstallments =
      loanC4.installments :=
  ⟨C4_conservation_amended.1 loanC4 30 0 (by norm_num [loanC4, totalDailyRate]),
   C4_conservation_amended.2 loanC4 ⟨"w", 50, 0⟩⟩

/-- C5.  For every computed payment coverage, `isLate` holds iff
`coverageStartDate ≤` the as-of date (inclusive boundary), and
`latePaymentDate` is `coverageStartDate` when late and null otherwise. -/
theorem C5_isLate_boundary (paymentAmount dailyRate : ℚ)
    (lastCoveredDate paymentDate : JSDate) (skippedDates : List JSDate) :
    ((V1.calculatePaymentCoverageWithSkippedDates paymentAmount dailyRate
        lastCoveredDate paymentDate skippedDates).isLate = true ↔
      dateLe (V1.calculatePaymentCoverageWithSkippedDates paymentAmount dailyRate
        lastCoveredDate paymentDate skippedDates).coverageStartDate paymentDate = true) ∧
    (V1.calculatePaymentCoverageWithSkippedDates paymentAmount dailyRate
        lastCoveredDate paymentDate skippedDates).latePaymentDate =
      (if (V1.calculatePaymentCoverageWithSkippedDates paymentAmount dailyRate
          lastCoveredDate paymentDate skippedDates).isLate then
        some (V1.calculatePaymentCoverageWithSkippedDates paymentAmount dailyRate
          lastCoveredDate paymentDate skippedDates).coverageStartDate
      else none) :=
  ⟨Iff.rfl, rfl⟩

/-- C6.  Code bug: `lastCoveredDate` is not monotone in the recorded
payments.  On a loan started Jan 1 2023 with daily rate 1 and no skipped
dates, 59 paid units place the ledger at Mar 2 2023 (Jan 1 + 59 logical
days runs through JS "Feb 30" = Mar 2), but adding one more unit (60
units) places it at Mar 1 2023 — adding a payment moved the covered-through
date strictly backward, and deleting that payment would move it forward. -/
theorem C6_monotonicity_violation :
    V1.getLastCoveredDate loanC6 [⟨"p1", 59, 0⟩] none (Except.ok []) = ⟨2023, 2, 2⟩ ∧
    V1.getLastCoveredDate loanC6 [⟨"p1", 59, 0⟩, ⟨"p2", 1, 0⟩] none (Except.ok []) = ⟨2023, 2, 1⟩ ∧
    dateLt ⟨2023, 2, 1⟩ ⟨2023, 2, 2⟩ = true := by
  refine ⟨?_, ?_, by decide⟩ <;>
  · simp only [V1.getLastCoveredDate, ratFloor_eq_intFloor]
    norm_num [loanC6, totalDailyRate, countSkippedDatesInRange]
    decide

/-- C7.  With a resolved store id, payment creation fails with the
loan-not-found error when the loan does not exist, with the terminal-state
error when the loan status is COMPLETED or DEFAULTED, and with the
exceeds-remaining-debt validation error when the base amount is strictly
greater than `debtRemaining`; every failure happens before any write (the
error value carries no installment record and no loan update). -/
theorem C7_validation_failures (dto : V2.CreateInstallmentDto)
    (userStoreId : Option String) (loanOpt : Option Loan)
    (payments : List Payment) (skippedResult : Except Unit (List JSDate))
    (today : JSDate)
    (hstore : V2.resolvedStoreId dto.storeId userStoreId ≠ none) :
    (loanOpt = none →
      V2.create dto userStoreId loanOpt payments skippedResult today =
        Except.error V2.CreateError.loanNotFound) ∧
    (∀ loan, loanOpt = some loan →
      loan.status = LoanStatus.COMPLETED ∨ loan.status = LoanStatus.DEFAULTED →
      V2.create dto userStoreId loanOpt payments skippedResult today =
        Except.error (V2.CreateError.terminalState loan.status)) ∧
    (∀ loan, loanOpt = some loan → loan.status = LoanStatus.ACTIVE →
      loan.debtRemaining < dto.amount →
      V2.create dto userStoreId loanOpt payments skippedResult today =
        Except.error V2.CreateError.exceedsDebt) := by
  refine ⟨?_, ?_, ?_⟩
  · intro h
    subst h
    simp [V2.create, hstore]
  · intro loan h hterm
    subst h
    simp [V2.create, hstore, hterm]
  · intro loan h hstatus hlt
    subst h
    have hterm : ¬ (loan.status = LoanStatus.COMPLETED ∨ loan.status = LoanStatus.DEFAULTED) := by
      simp [hstatus]
    simp [V2.create, hstore, hterm, hlt]

/-- C7 witness: the three failures at concrete inputs. -/
theorem C7_validation_failures_witness :
    V2.create dtoC7w none none [] (Except.ok []) ⟨2024, 0, 2⟩ =
      Except.error V2.CreateError.loanNotFound ∧
    V2.create dtoC7w none (some loanC7completed) [] (Except.ok []) ⟨2024, 0, 2⟩ =
      Except.error (V2.CreateError.terminalState loanC7completed.status) ∧
    V2.create dtoC7w none (some loanC7active) [] (Except.ok []) ⟨2024, 0, 2⟩ =
      Except.error V2.CreateError.exceedsDebt :=
  ⟨(C7_validation_failures dtoC7w none none [] (Except.ok []) ⟨2024, 0, 2⟩
      (by simp [V2.resolvedStoreId, dtoC7w])).1 rfl,
   (C7_validation_failures dtoC7w none (some loanC7completed) [] (Except.ok []) ⟨2024, 0, 2⟩
      (by simp [V2.resolvedStoreId, dtoC7w])).2.1 loanC7completed rfl (Or.inl rfl),
   (C7_validation_failures dtoC7w none (some loanC7active) [] (Except.ok []) ⟨2024, 0, 2⟩
      (by simp [V2.resolvedStoreId, dtoC7w])).2.2 loanC7active rfl rfl
      (by norm_num [loanC7active, dtoC7w])⟩

/-- C8.  A failing skipped-date resolver is equivalent to an empty skip
set for the ledger recomputation, the coverage preview and payment
creation: each computes exactly the same result on `Except.error` as on
`Except.ok []`, and in particular the resolver failure is never raised to
the caller. -/
theorem C8_resolver_degradation (loan : Loan) (payments : List Payment)
    (excludeInstallmentId : Option String) (amount : ℚ)
    (dto : V2.CreateInstallmentDto) (userStoreId : Option String)
    (loanOpt : Option Loan) (today : JSDate) :
    V1.getLastCoveredDate loan payments excludeInstallmentId (Except.error ()) =
      V1.getLastCoveredDate loan payments excludeInstallmentId (Except.ok []) ∧
    V1.calculateCoverage amount excludeInstallmentId loanOpt payments
        (Except.error ()) today =
      V1.calculateCoverage amount excludeInstallmentId loanOpt payments
        (Except.ok []) today ∧
    V2.create dto userStoreId loanOpt payments (Except.error ()) today =
      V2.create dto userStoreId loanOpt payments (Except.ok []) today := by
  refine ⟨rfl, ?_, ?_⟩
  · cases loanOpt <;> rfl
  · by_cases h : V2.resolvedStoreId dto.storeId userStoreId = none
    · simp [V2.create, h]
    · cases loanOpt with
      | none => simp [V2.create, h]
      | some loan =>
        simp only [V2.create, h, if_neg]
        split_ifs <;> rfl

/-- C9.  Under the (spec-modelled) loan-configuration validation, the
total daily rate is strictly positive, so the `(amount + gps) / dailyRate`
divisions of the coverage math are genuine (exact) divisions by a positive
rate — no coverage computation divides by a zero or negative rate. -/
theorem C9_positive_rate_guard (loan : Loan) (p : Payment)
    (h : validateLoanConfiguration loan = Except.ok loan) :
    0 < totalDailyRate loan ∧
    (p.amount + p.gps) / totalDailyRate loan * totalDailyRate loan =
      p.amount + p.gps := by
  have hpos : 0 < totalDailyRate loan := by
    by_contra hneg
    simp [validateLoanConfiguration, not_lt.mp hneg] at h
  exact ⟨hpos, div_mul_cancel₀ _ hpos.ne'⟩

/-- C9 witness: a validated concrete configuration. -/
theorem C9_positive_rate_guard_witness :
    0 < totalDailyRate loanC9w ∧
    ((⟨"w", 7, 3⟩ : Payment).amount + (⟨"w", 7, 3⟩ : Payment).gps) /
        totalDailyRate loanC9w * totalDailyRate loanC9w =
      (⟨"w", 7, 3⟩ : Payment).amount + (⟨"w", 7, 3⟩ : Payment).gps :=
  C9_positive_rate_guard loanC9w ⟨"w", 7, 3⟩
    (by norm_num [validateLoanConfiguration, totalDailyRate, loanC9w])

/-- C10.  `create` applies no lower bound to the payment amount: for an
ACTIVE loan and any base amount at most `debtRemaining` — zero and
negative amounts included — validation passes, the installment record is
written with that amount, and the amount flows into the coverage and
aggregate math (`daysCoveredByPayment = (amount + gps) / dailyRate`, the
paid counter grows by the same fraction). -/
theorem C10_no_lower_bound (dto : V2.CreateInstallmentDto)
    (userStoreId : Option String) (loan : Loan) (payments : List Payment)
    (skippedDates : List JSDate) (today : JSDate)
    (hstore : V2.resolvedStoreId dto.storeId userStoreId ≠ none)
    (hstatus : loan.status = LoanStatus.ACTIVE)
    (hamount : dto.amount ≤ loan.debtRemaining) :
    ∃ r, V2.create dto userStoreId (some loan) payments (Except.ok skippedDates) today =
        Except.ok r ∧
      r.installment.amount = dto.amount ∧
      r.installment.daysCoveredByPayment =
        (dto.amount + dto.gps) / totalDailyRate loan ∧
      r.loanUpdate.paidInstallments =
        loan.paidInstallments + (dto.amount + dto.gps) / totalDailyRate loan := by
  have hterm : ¬ (loan.status = LoanStatus.COMPLETED ∨ loan.status = LoanStatus.DEFAULTED) := by
    simp [hstatus]
  have hlt : ¬ (dto.amount > loan.debtRemaining) := not_lt.mpr hamount
  simp only [V2.create, if_neg hstore, if_neg hterm, if_neg hlt]
  exact ⟨_, rfl, rfl, rfl, rfl⟩

/-- C10 witness: a strictly negative amount passes validation and is
applied. -/
theorem C10_no_lower_bound_witness :
    ∃ r, V2.create dtoC10w none (some loanC10w) [] (Except.ok []) ⟨2024, 0, 9⟩ =
        Except.ok r ∧
      r.installment.amount = dtoC10w.amount ∧
      r.installment.daysCoveredByPayment =
        (dtoC10w.amount + dtoC10w.gps) / totalDailyRate loanC10w ∧
      r.loanUpdate.paidInstallments =
        loanC10w.paidInstallments + (dtoC10w.amount + dtoC10w.gps) / totalDailyRate loanC10w :=
  C10_no_lower_bound dtoC10w none loanC10w [] [] ⟨2024, 0, 9⟩
    (by simp [V2.resolvedStoreId, dtoC10w]) rfl (by norm_num [dtoC10w, loanC10w])
